import Mathlib

/-!
Verification of `usecase/spawn_actor_processes.go` from allora-offchain-node.

The file shallowly embeds the dispatcher (`Spawn`), the worker loop
(`runWorkerProcess`) and the reputer loop (`runReputerProcess`).  The external
chain collaborator (topic lookup, chain height, nonce queries, registration,
payload commit) and the `AnticipatedWindow` computations, whose code lives
outside the embedded file, are modelled as environment oracles; the window
*membership* tests, which the spec pins down as interval membership, are
modelled from the spec.  Each loop iteration is recorded as an explicit
record, so that the theorems can speak about which external effects occurred
in which iteration and how the staleness flags evolved.
-/

namespace AlloraOffchain

/-- A chain nonce; `BlockHeight == 0` is the "no nonce currently open"
sentinel. -/
structure Nonce where
  BlockHeight : Int
deriving Repr, DecidableEq

/-- Snapshot of topic metadata, fetched once at loop start. -/
structure Topic where
  TopicId : Nat
  EpochLength : Int
deriving Repr, DecidableEq

/-- Per-topic worker configuration (payload details are irrelevant to
scheduling, only `TopicId` is observed by the dispatcher and loops). -/
structure WorkerConfig where
  TopicId : Nat
deriving Repr, DecidableEq

/-- Per-topic reputer configuration. -/
structure ReputerConfig where
  TopicId : Nat
deriving Repr, DecidableEq

/-- Modelled from the spec: the `AnticipatedWindow` record of the (missing)
window module.  The spec describes it as a predicted admissible block-height
interval with fractional bounds; the two field names are the ones the
embedded file reads when logging. -/
structure AnticipatedWindow where
  SoonestTimeForOpenNonceCheck : Rat
  SoonestTimeForEndOfWorkerNonceSubmission : Rat
deriving Repr, DecidableEq

/-- Modelled from the spec: `Contains(window, block)` — membership of a block
height in the window interval (`BlockIsWithinWindow` of the missing window
module): false strictly outside `[lower, upper]`, true within. -/
def AnticipatedWindow.BlockIsWithinWindow (w : AnticipatedWindow) (block : Int) : Bool :=
  w.SoonestTimeForOpenNonceCheck ≤ (block : Rat) &&
    (block : Rat) ≤ w.SoonestTimeForEndOfWorkerNonceSubmission

/-- Modelled from the spec: `ContainsReputer(window, block)` — the reputer
variant of window membership (`BlockIsWithinReputerWindow` of the missing
window module), again interval membership over the window's bounds. -/
def AnticipatedWindow.BlockIsWithinReputerWindow (w : AnticipatedWindow) (block : Int) : Bool :=
  w.SoonestTimeForOpenNonceCheck ≤ (block : Rat) &&
    (block : Rat) ≤ w.SoonestTimeForEndOfWorkerNonceSubmission

/-- The zero value of `AnticipatedWindow` (Go's `AnticipatedWindow{}`). -/
def AnticipatedWindow.zero : AnticipatedWindow := ⟨0, 0⟩

/-! ## Dispatcher (`Spawn`) -/

/-- The per-role launch scan of `Spawn`: walk the configuration list, keep a
set (`alreadyStarted…ForTopic`) of topic ids already launched, skip a
configuration whose topic id was seen (only logged) and otherwise launch it
and record the id. -/
def spawnDedup {α : Type} (getId : α → Nat) : List α → List Nat → List α
  | [], _ => []
  | c :: cs, seen =>
    if getId c ∈ seen then
      spawnDedup getId cs seen
    else
      c :: spawnDedup getId cs (getId c :: seen)

/-- The node's configuration: worker entries and reputer entries. -/
structure NodeConfig where
  Worker : List WorkerConfig
  Reputer : List ReputerConfig
deriving Repr, DecidableEq

/-- The tasks `Spawn` launches: one worker loop per surviving worker entry and
one reputer loop per surviving reputer entry, in configuration order. -/
structure SpawnedTasks where
  workerTasks : List WorkerConfig
  reputerTasks : List ReputerConfig
deriving Repr, DecidableEq

/-- `Spawn`: deduplicate each role's configuration list by `TopicId` (first
entry wins) and launch one loop per surviving entry.  The launched tasks are
returned; the join barrier (`wg.Wait()`) adds nothing observable here. -/
def Spawn (node : NodeConfig) : SpawnedTasks :=
  ⟨spawnDedup WorkerConfig.TopicId node.Worker [],
   spawnDedup ReputerConfig.TopicId node.Reputer []⟩

/-! ## Worker loop -/

/-- Oracle view of the chain collaborator as seen by one worker loop (the
loop's configuration is fixed, so the `TopicId` arguments are dropped).
Per-iteration calls are indexed by the iteration counter; `none` models a Go
error return.  Nonce fetch and commit return the value paired with an error
flag, matching the Go `(value, err)` pairs.  The two window computations of
the missing window module are oracles as well. -/
structure WorkerEnv where
  getTopicById : Option Topic
  registerWorkerIdempotently : Bool
  getCurrentChainBlockHeight : Nat → Option Int
  calcWorkerSoonestAnticipatedWindow : Nat → Topic → Int → AnticipatedWindow
  getLatestOpenWorkerNonceByTopicId : Nat → Nonce × Bool
  buildCommitWorkerPayload : Nat → Nonce → Bool × Bool

/-- Which wait the iteration ended with: `WaitWithinAnticipatedWindow`
(short backoff) or `WaitForNextAnticipatedWindowToStart`. -/
inductive WaitKind where
  | short
  | nextWindow
deriving Repr, DecidableEq

/-- Observable record of one worker-loop iteration: the fetched height,
whether the window was recomputed, the window used, the membership test
result, the nonce fetch (if reached) with its error flag, the commit attempt
(if reached) with the nonce used, its success flag and its error flag, and
the wait performed at the end. -/
structure WorkerIter where
  height : Int
  recalced : Bool
  window : AnticipatedWindow
  inWindow : Bool
  nonceFetch : Option (Nonce × Bool)
  commit : Option (Nonce × Bool × Bool)
  wait : WaitKind
deriving Repr, DecidableEq

/-- Did this iteration's commit attempt succeed? -/
def WorkerIter.commitSucceeded (it : WorkerIter) : Bool :=
  match it.commit with
  | some (_, true, _) => true
  | _ => false

/-- The worker loop's mutable state across iterations: the `mustRecalcWindow`
flag and the `window` local. -/
structure WorkerState where
  mustRecalcWindow : Bool
  window : AnticipatedWindow
deriving Repr, DecidableEq

/-- Result of one pass through the worker loop body. -/
inductive WorkerStepResult where
  | heightError
  | step (it : WorkerIter) (st : WorkerState)
deriving Repr, DecidableEq

/-- One pass through the body of the worker `for` loop (iteration `i`):
fetch the height (an error returns from the loop); recompute the window when
stale; inside the window fetch the latest open worker nonce, gate the commit
attempt on `BlockHeight == 0 || err`, attempt the commit when the gate
passes; on success mark the window stale and wait for the next window start,
otherwise back off within the window; outside the window wait for the next
window start. -/
def workerIterStep (env : WorkerEnv) (topic : Topic) (i : Nat) (st : WorkerState) :
    WorkerStepResult :=
  match env.getCurrentChainBlockHeight i with
  | none => .heightError
  | some currentBlock =>
    let recalced := st.mustRecalcWindow
    let window :=
      if st.mustRecalcWindow then
        env.calcWorkerSoonestAnticipatedWindow i topic currentBlock
      else st.window
    if window.BlockIsWithinWindow currentBlock then
      let fetched := env.getLatestOpenWorkerNonceByTopicId i
      if fetched.1.BlockHeight == 0 || fetched.2 then
        .step ⟨currentBlock, recalced, window, true, some fetched, none, .short⟩
          ⟨false, window⟩
      else
        let outcome := env.buildCommitWorkerPayload i fetched.1
        if outcome.1 then
          .step ⟨currentBlock, recalced, window, true, some fetched,
              some (fetched.1, outcome.1, outcome.2), .nextWindow⟩
            ⟨true, window⟩
        else
          .step ⟨currentBlock, recalced, window, true, some fetched,
              some (fetched.1, outcome.1, outcome.2), .short⟩
            ⟨false, window⟩
    else
      .step ⟨currentBlock, recalced, window, false, none, none, .nextWindow⟩
        ⟨false, window⟩

/-- Why a (fuel-bounded) run of the worker loop stopped. -/
inductive WorkerStop where
  | fuelOut
  | heightError
deriving Repr, DecidableEq

/-- Fuel-bounded run of the worker `for` loop from iteration `i` in state
`st`, collecting the iteration records in order. -/
def runWorkerLoop (env : WorkerEnv) (topic : Topic) :
    Nat → Nat → WorkerState → List WorkerIter × WorkerStop
  | 0, _, _ => ([], .fuelOut)
  | fuel + 1, i, st =>
    match workerIterStep env topic i st with
    | .heightError => ([], .heightError)
    | .step it st' =>
      let rest := runWorkerLoop env topic fuel (i + 1) st'
      (it :: rest.1, rest.2)

/-- Outcome of one whole worker process run. -/
inductive WorkerOutcome where
  | topicError
  | registerFailed (topic : Topic)
  | ran (topic : Topic) (iters : List WorkerIter) (stop : WorkerStop)
deriving Repr, DecidableEq

/-- The iterations the loop executed (none when it returned before the loop). -/
def WorkerOutcome.iters : WorkerOutcome → List WorkerIter
  | .ran _ its _ => its
  | _ => []

/-- The commit attempts made during the run, as (nonce, success, err). -/
def WorkerOutcome.commits (o : WorkerOutcome) : List (Nonce × Bool × Bool) :=
  o.iters.filterMap WorkerIter.commit

/-- `runWorkerProcess`: fetch the topic (an error returns immediately),
register idempotently (an unsuccessful registration returns immediately),
then enter the loop with a stale window and the zero window value. -/
def runWorkerProcess (env : WorkerEnv) (fuel : Nat) : WorkerOutcome :=
  match env.getTopicById with
  | none => .topicError
  | some topic =>
    if env.registerWorkerIdempotently then
      let r := runWorkerLoop env topic fuel 0 ⟨true, AnticipatedWindow.zero⟩
      .ran topic r.1 r.2
    else
      .registerFailed topic

/-- The dispatcher composed with the worker loops: each launched worker task
runs with its own environment; no state is shared between tasks. -/
def spawnRunWorkers (envOf : WorkerConfig → WorkerEnv) (node : NodeConfig) (fuel : Nat) :
    List WorkerOutcome :=
  (Spawn node).workerTasks.map (fun c => runWorkerProcess (envOf c) fuel)

/-! ## Reputer loop -/

/-- Oracle view of the chain collaborator as seen by one reputer loop,
analogous to `WorkerEnv`; both window computations of the missing window
module appear, since the reputer recomputes the open-nonce window (the same
computation the worker uses) and its own submission window anchored to the
fetched nonce's block height. -/
structure ReputerEnv where
  getTopicById : Option Topic
  registerAndStakeReputerIdempotently : Bool
  getCurrentChainBlockHeight : Nat → Option Int
  calcWorkerSoonestAnticipatedWindow : Nat → Topic → Int → AnticipatedWindow
  getLatestOpenWorkerNonceByTopicId : Nat → Nonce × Bool
  calcReputerSoonestAnticipatedWindow : Nat → Topic → Int → AnticipatedWindow
  buildCommitReputerPayload : Nat → Int → Bool × Bool

/-- Which wait a reputer iteration ended with: `WaitWithinAnticipatedWindow`
(short backoff), `WaitForNextAnticipatedWindowToStart` (worker-anchored), or
`WaitForNextReputerAnticipatedWindowToStart` (nonce-anchored). -/
inductive RWaitKind where
  | short
  | nextWindow
  | reputerNextWindow
deriving Repr, DecidableEq

/-- Observable record of one reputer-loop iteration.  `fetchFailed` marks the
branch that logs the failed nonce fetch and `continue`s; its `wait` is `none`
because the loop restarts without any wait.  `commit` records the nonce block
height passed to `BuildCommitReputerPayload`, the success flag and the error
flag. -/
structure ReputerIter where
  height : Int
  recalcedOpenNonceWindow : Bool
  nonceFetch : Option (Nonce × Bool)
  fetchFailed : Bool
  recalcedReputerWindow : Bool
  window : AnticipatedWindow
  commit : Option (Int × Bool × Bool)
  wait : Option RWaitKind
deriving Repr, DecidableEq

/-- Did this reputer iteration's commit attempt succeed? -/
def ReputerIter.commitSucceeded (it : ReputerIter) : Bool :=
  match it.commit with
  | some (_, true, _) => true
  | _ => false

/-- The reputer loop's mutable state across iterations: the
`latestOpenReputerNonce` pointer (`none` models Go's nil), the three
staleness flags and the `window` local. -/
structure ReputerState where
  latestOpenReputerNonce : Option Nonce
  mustRecalcOpenNonceWindow : Bool
  mustGetOpenNonce : Bool
  mustRecalcReputerWindow : Bool
  window : AnticipatedWindow
deriving Repr, DecidableEq

/-- Result of one pass through the reputer loop body.  `nilNonceDeref` marks
the paths on which the Go code dereferences `latestOpenReputerNonce` while it
is still nil (a runtime panic): the reputer-window recomputation, the commit
attempt and the nonce-anchored wait all read `latestOpenReputerNonce`. -/
inductive ReputerStepResult where
  | heightError
  | nilNonceDeref
  | step (it : ReputerIter) (st : ReputerState)
deriving Repr, DecidableEq

/-- The tail of the reputer loop body after the nonce-fetch phase: recompute
the reputer submission window when stale (reading the nonce's block height),
then either attempt the commit inside the reputer window (success resets all
three flags and performs the worker-anchored window wait; failure backs off
within the window) or perform the nonce-anchored window wait outside it.
Every path reads the nonce, so a still-nil nonce is a nil dereference. -/
def reputerIterTail (env : ReputerEnv) (topic : Topic) (i : Nat) (currentBlock : Int)
    (recalcedOpen : Bool) (window1 : AnticipatedWindow)
    (fetched : Option (Nonce × Bool)) (nonce : Option Nonce)
    (mustGet mustRecalcRep : Bool) : ReputerStepResult :=
  match nonce with
  | none => .nilNonceDeref
  | some n =>
    let window2 :=
      if mustRecalcRep then
        env.calcReputerSoonestAnticipatedWindow i topic n.BlockHeight
      else window1
    if window2.BlockIsWithinReputerWindow currentBlock then
      let outcome := env.buildCommitReputerPayload i n.BlockHeight
      if outcome.1 then
        .step ⟨currentBlock, recalcedOpen, fetched, false, mustRecalcRep, window2,
            some (n.BlockHeight, outcome.1, outcome.2), some .nextWindow⟩
          ⟨some n, true, true, true, window2⟩
      else
        .step ⟨currentBlock, recalcedOpen, fetched, false, mustRecalcRep, window2,
            some (n.BlockHeight, outcome.1, outcome.2), some .short⟩
          ⟨some n, false, mustGet, false, window2⟩
    else
      .step ⟨currentBlock, recalcedOpen, fetched, false, mustRecalcRep, window2,
          none, some .reputerNextWindow⟩
        ⟨some n, false, mustGet, false, window2⟩

/-- One pass through the body of the reputer `for` loop (iteration `i`):
fetch the height (an error returns from the loop); recompute the open-nonce
window when stale; when a nonce is needed and the height is inside that
window, fetch the latest open worker nonce — the fetched value is stored
(Go's assignment precedes the check) and a sentinel (`BlockHeight == 0`) or
an error logs, keeps `mustGetOpenNonce` set and `continue`s with no wait;
then the tail phases run. -/
def reputerIterStep (env : ReputerEnv) (topic : Topic) (i : Nat) (st : ReputerState) :
    ReputerStepResult :=
  match env.getCurrentChainBlockHeight i with
  | none => .heightError
  | some currentBlock =>
    let recalcedOpen := st.mustRecalcOpenNonceWindow
    let window1 :=
      if st.mustRecalcOpenNonceWindow then
        env.calcWorkerSoonestAnticipatedWindow i topic currentBlock
      else st.window
    if st.mustGetOpenNonce && window1.BlockIsWithinWindow currentBlock then
      let fetched := env.getLatestOpenWorkerNonceByTopicId i
      if fetched.1.BlockHeight == 0 || fetched.2 then
        .step ⟨currentBlock, recalcedOpen, some fetched, true, false, window1, none, none⟩
          ⟨some fetched.1, false, true, st.mustRecalcReputerWindow, window1⟩
      else
        reputerIterTail env topic i currentBlock recalcedOpen window1
          (some fetched) (some fetched.1) false st.mustRecalcReputerWindow
    else
      reputerIterTail env topic i currentBlock recalcedOpen window1
        none st.latestOpenReputerNonce st.mustGetOpenNonce st.mustRecalcReputerWindow

/-- Why a (fuel-bounded) run of the reputer loop stopped. -/
inductive ReputerStop where
  | fuelOut
  | heightError
  | nilNonceCrash
deriving Repr, DecidableEq

/-- Fuel-bounded run of the reputer `for` loop from iteration `i` in state
`st`, collecting the iteration records in order. -/
def runReputerLoop (env : ReputerEnv) (topic : Topic) :
    Nat → Nat → ReputerState → List ReputerIter × ReputerStop
  | 0, _, _ => ([], .fuelOut)
  | fuel + 1, i, st =>
    match reputerIterStep env topic i st with
    | .heightError => ([], .heightError)
    | .nilNonceDeref => ([], .nilNonceCrash)
    | .step it st' =>
      let rest := runReputerLoop env topic fuel (i + 1) st'
      (it :: rest.1, rest.2)

/-- Outcome of one whole reputer process run. -/
inductive ReputerOutcome where
  | topicError
  | registerFailed (topic : Topic)
  | ran (topic : Topic) (iters : List ReputerIter) (stop : ReputerStop)
deriving Repr, DecidableEq

/-- The iterations the loop executed (none when it returned before the loop). -/
def ReputerOutcome.iters : ReputerOutcome → List ReputerIter
  | .ran _ its _ => its
  | _ => []

/-- The commit attempts made during the run, as
(nonce block height, success, err). -/
def ReputerOutcome.commits (o : ReputerOutcome) : List (Int × Bool × Bool) :=
  o.iters.filterMap ReputerIter.commit

/-- The nonce block heights of the commit attempts made during the run. -/
def ReputerOutcome.commitHeights (o : ReputerOutcome) : List Int :=
  o.commits.map (fun c => c.1)

/-- `runReputerProcess`: fetch the topic (an error returns immediately),
register and stake idempotently (an unsuccessful call returns immediately),
then enter the loop with a nil nonce, all three flags set and the zero
window value. -/
def runReputerProcess (env : ReputerEnv) (fuel : Nat) : ReputerOutcome :=
  match env.getTopicById with
  | none => .topicError
  | some topic =>
    if env.registerAndStakeReputerIdempotently then
      let r := runReputerLoop env topic fuel 0 ⟨none, true, true, true, AnticipatedWindow.zero⟩
      .ran topic r.1 r.2
    else
      .registerFailed topic

/-- The dispatcher composed with the reputer loops: each launched reputer
task runs with its own environment; no state is shared between tasks. -/
def spawnRunReputers (envOf : ReputerConfig → ReputerEnv) (node : NodeConfig) (fuel : Nat) :
    List ReputerOutcome :=
  (Spawn node).reputerTasks.map (fun c => runReputerProcess (envOf c) fuel)

/-! ## Dispatcher lemmas -/

theorem spawnDedup_nodup_avoid {α : Type} (getId : α → Nat) :
    ∀ (cs : List α) (seen : List Nat),
      ((spawnDedup getId cs seen).map getId).Nodup ∧
      ∀ x ∈ (spawnDedup getId cs seen).map getId, x ∉ seen := by
  intro cs
  induction cs with
  | nil => intro seen; simp [spawnDedup]
  | cons c cs ih =>
    intro seen
    by_cases hm : getId c ∈ seen
    · simpa [spawnDedup, hm] using ih seen
    · have h1 := ih (getId c :: seen)
      constructor
      · simp only [spawnDedup, if_neg hm, List.map_cons, List.nodup_cons]
        exact ⟨fun hx => (h1.2 _ hx) (List.mem_cons_self _ _), h1.1⟩
      · intro x hx
        simp only [spawnDedup, if_neg hm, List.map_cons, List.mem_cons] at hx
        rcases hx with rfl | hx
        · exact hm
        · exact fun hxs => (h1.2 x hx) (List.mem_cons_of_mem _ hxs)

theorem mem_spawnDedup_map {α : Type} (getId : α → Nat) :
    ∀ (cs : List α) (seen : List Nat) (x : Nat),
      x ∈ (spawnDedup getId cs seen).map getId ↔ x ∈ cs.map getId ∧ x ∉ seen := by
  intro cs
  induction cs with
  | nil => intro seen x; simp [spawnDedup]
  | cons c cs ih =>
    intro seen x
    by_cases hm : getId c ∈ seen
    · rw [show spawnDedup getId (c :: cs) seen = spawnDedup getId cs seen by
        simp [spawnDedup, hm]]
      rw [ih seen x]
      simp only [List.map_cons, List.mem_cons]
      constructor
      · exact fun ⟨h1, h2⟩ => ⟨Or.inr h1, h2⟩
      · rintro ⟨h1 | h1, h2⟩
        · exact absurd (h1 ▸ hm) h2
        · exact ⟨h1, h2⟩
    · rw [show spawnDedup getId (c :: cs) seen =
          c :: spawnDedup getId cs (getId c :: seen) by simp [spawnDedup, hm]]
      simp only [List.map_cons, List.mem_cons]
      rw [ih (getId c :: seen) x]
      simp only [List.mem_cons]
      constructor
      · rintro (rfl | ⟨h1, h2⟩)
        · exact ⟨Or.inl rfl, hm⟩
        · exact ⟨Or.inr h1, fun hs => h2 (Or.inr hs)⟩
      · rintro ⟨rfl | h1, h2⟩
        · exact Or.inl rfl
        · by_cases hcx : x = getId c
          · exact Or.inl hcx
          · exact Or.inr ⟨h1, fun hs => hs.elim (fun he => hcx he) h2⟩

theorem spawnDedup_length {α : Type} (getId : α → Nat) (cs : List α) :
    (spawnDedup getId cs []).length = (cs.map getId).toFinset.card := by
  have hn := (spawnDedup_nodup_avoid getId cs []).1
  have hset : ((spawnDedup getId cs []).map getId).toFinset = (cs.map getId).toFinset := by
    ext x
    simp only [List.mem_toFinset]
    rw [mem_spawnDedup_map getId cs [] x]
    simp
  calc (spawnDedup getId cs []).length
      = ((spawnDedup getId cs []).map getId).length := (List.length_map _ _).symm
    _ = ((spawnDedup getId cs []).map getId).toFinset.card :=
        (List.toFinset_card_of_nodup hn).symm
    _ = (cs.map getId).toFinset.card := by rw [hset]

theorem spawnDedup_first_wins {α : Type} (getId : α → Nat) :
    ∀ (cs : List α) (seen : List Nat) (w : α), w ∈ spawnDedup getId cs seen →
      cs.find? (fun b => getId b == getId w) = some w := by
  intro cs
  induction cs with
  | nil => intro seen w hw; simp [spawnDedup] at hw
  | cons c cs ih =>
    intro seen w hw
    by_cases hm : getId c ∈ seen
    · rw [show spawnDedup getId (c :: cs) seen = spawnDedup getId cs seen by
        simp [spawnDedup, hm]] at hw
      have hno : getId w ∉ seen := by
        have := (spawnDedup_nodup_avoid getId cs seen).2 (getId w)
          (List.mem_map_of_mem getId hw)
        exact this
      have hne : ¬(getId c == getId w) = true := by
        simp only [beq_iff_eq]
        exact fun he => hno (he ▸ hm)
      rw [show List.find? (fun b => getId b == getId w) (c :: cs) =
          List.find? (fun b => getId b == getId w) cs from
        List.find?_cons_of_neg _ hne]
      exact ih seen w hw
    · rw [show spawnDedup getId (c :: cs) seen =
          c :: spawnDedup getId cs (getId c :: seen) by simp [spawnDedup, hm]] at hw
      rcases List.mem_cons.mp hw with rfl | hw
      · exact List.find?_cons_of_pos _ (by simp)
      · have hno : getId w ∉ getId c :: seen := by
          have := (spawnDedup_nodup_avoid getId cs (getId c :: seen)).2 (getId w)
            (List.mem_map_of_mem getId hw)
          exact this
        have hne : ¬(getId c == getId w) = true := by
          simp only [beq_iff_eq]
          exact fun he => hno (he ▸ List.mem_cons_self _ _)
        rw [show List.find? (fun b => getId b == getId w) (c :: cs) =
            List.find? (fun b => getId b == getId w) cs from
          List.find?_cons_of_neg _ hne]
        exact ih (getId c :: seen) w hw

/-- C2: `Spawn` launches exactly one task per distinct `(role, TopicId)`
pair: for each role, the number of launched tasks equals the number of
distinct `TopicId`s in that role's configuration list, launched topic ids
are pairwise distinct and cover every configured id, and the launched
configuration for a topic id is the first configuration in that role's list
carrying that id (later duplicates are skipped). -/
theorem spawn_dedup_per_role (node : NodeConfig) :
    ((Spawn node).workerTasks.length = (node.Worker.map WorkerConfig.TopicId).toFinset.card) ∧
    (((Spawn node).workerTasks.map WorkerConfig.TopicId).Nodup) ∧
    (∀ w ∈ (Spawn node).workerTasks,
      node.Worker.find? (fun b => WorkerConfig.TopicId b == WorkerConfig.TopicId w) = some w) ∧
    (∀ t ∈ node.Worker.map WorkerConfig.TopicId,
      t ∈ (Spawn node).workerTasks.map WorkerConfig.TopicId) ∧
    ((Spawn node).reputerTasks.length = (node.Reputer.map ReputerConfig.TopicId).toFinset.card) ∧
    (((Spawn node).reputerTasks.map ReputerConfig.TopicId).Nodup) ∧
    (∀ w ∈ (Spawn node).reputerTasks,
      node.Reputer.find? (fun b => ReputerConfig.TopicId b == ReputerConfig.TopicId w) = some w) ∧
    (∀ t ∈ node.Reputer.map ReputerConfig.TopicId,
      t ∈ (Spawn node).reputerTasks.map ReputerConfig.TopicId) := by
  refine ⟨spawnDedup_length _ _, (spawnDedup_nodup_avoid _ _ _).1,
    fun w hw => spawnDedup_first_wins _ _ _ w hw,
    fun t ht => (mem_spawnDedup_map _ _ _ t).mpr ⟨ht, by simp⟩,
    spawnDedup_length _ _, (spawnDedup_nodup_avoid _ _ _).1,
    fun w hw => spawnDedup_first_wins _ _ _ w hw,
    fun t ht => (mem_spawnDedup_map _ _ _ t).mpr ⟨ht, by simp⟩⟩

/-- Witness for C2 on a configuration with duplicates in both roles. -/
theorem spawn_dedup_per_role_witness :
    (Spawn ⟨[⟨1⟩, ⟨2⟩, ⟨1⟩], [⟨3⟩, ⟨3⟩]⟩).workerTasks.length =
      (([⟨1⟩, ⟨2⟩, ⟨1⟩] : List WorkerConfig).map WorkerConfig.TopicId).toFinset.card ∧
    ([⟨1⟩, ⟨2⟩, ⟨1⟩] : List WorkerConfig).find?
      (fun b => WorkerConfig.TopicId b == WorkerConfig.TopicId ⟨1⟩) = some ⟨1⟩ ∧
    (3 : Nat) ∈ (Spawn ⟨[⟨1⟩, ⟨2⟩, ⟨1⟩], [⟨3⟩, ⟨3⟩]⟩).reputerTasks.map ReputerConfig.TopicId :=
  ⟨(spawn_dedup_per_role ⟨[⟨1⟩, ⟨2⟩, ⟨1⟩], [⟨3⟩, ⟨3⟩]⟩).1,
   (spawn_dedup_per_role ⟨[⟨1⟩, ⟨2⟩, ⟨1⟩], [⟨3⟩, ⟨3⟩]⟩).2.2.1 ⟨1⟩ (by decide),
   (spawn_dedup_per_role ⟨[⟨1⟩, ⟨2⟩, ⟨1⟩], [⟨3⟩, ⟨3⟩]⟩).2.2.2.2.2.2.2 3 (by decide)⟩

/-! ## Worker-loop lemmas -/

theorem workerStep_heightError (env : WorkerEnv) (topic : Topic) (i : Nat) (st : WorkerState)
    (h : env.getCurrentChainBlockHeight i = none) :
    workerIterStep env topic i st = .heightError := by
  unfold workerIterStep
  rw [h]

theorem workerStep_facts (env : WorkerEnv) (topic : Topic) (i : Nat)
    (st : WorkerState) (it : WorkerIter) (st' : WorkerState)
    (h : workerIterStep env topic i st = .step it st') :
    (∀ n s e, it.commit = some (n, s, e) → n.BlockHeight ≠ 0) ∧
    (∀ n e, it.commit = some (n, true, e) →
      st'.mustRecalcWindow = true ∧ it.wait = .nextWindow) ∧
    (∀ n e, it.commit = some (n, false, e) →
      st'.mustRecalcWindow = false ∧ it.wait = .short) ∧
    (∀ f, it.nonceFetch = some f → (f.1.BlockHeight = 0 ∨ f.2 = true) →
      it.commit = none ∧ it.wait = .short ∧ st'.mustRecalcWindow = false) := by
  unfold workerIterStep at h
  rcases hcb : env.getCurrentChainBlockHeight i with _ | cb
  · rw [hcb] at h; exact absurd h (by simp)
  · rw [hcb] at h
    simp only at h
    split_ifs at h with h1 h2 h3 <;> cases h <;> simp_all

theorem runWorkerLoop_heightError (env : WorkerEnv) (topic : Topic) (fuel i : Nat)
    (st : WorkerState) (h : env.getCurrentChainBlockHeight i = none) :
    runWorkerLoop env topic (fuel + 1) i st = ([], .heightError) := by
  simp [runWorkerLoop, workerStep_heightError env topic i st h]

theorem runWorkerLoop_mem_step (env : WorkerEnv) (topic : Topic) :
    ∀ (fuel i : Nat) (st : WorkerState) (it : WorkerIter),
      it ∈ (runWorkerLoop env topic fuel i st).1 →
      ∃ j stj st', workerIterStep env topic j stj = .step it st' := by
  intro fuel
  induction fuel with
  | zero => intro i st it h; simp [runWorkerLoop] at h
  | succ fuel ih =>
    intro i st it h
    rw [runWorkerLoop] at h
    cases hs : workerIterStep env topic i st with
    | heightError => rw [hs] at h; simp at h
    | step it0 st0 =>
      rw [hs] at h
      simp only [List.mem_cons] at h
      rcases h with rfl | h
      · exact ⟨i, st, st0, hs⟩
      · exact ih (i + 1) st0 it h

theorem runWorkerLoop_commit_ne_zero (env : WorkerEnv) (topic : Topic)
    (fuel i : Nat) (st : WorkerState) (it : WorkerIter)
    (hmem : it ∈ (runWorkerLoop env topic fuel i st).1)
    (n : Nonce) (s e : Bool) (hc : it.commit = some (n, s, e)) :
    n.BlockHeight ≠ 0 := by
  obtain ⟨j, stj, st', hstep⟩ := runWorkerLoop_mem_step env topic fuel i st it hmem
  exact (workerStep_facts env topic j stj it st' hstep).1 n s e hc

theorem runWorkerLoop_success_wait (env : WorkerEnv) (topic : Topic)
    (fuel i : Nat) (st : WorkerState) (it : WorkerIter)
    (hmem : it ∈ (runWorkerLoop env topic fuel i st).1)
    (hs : it.commitSucceeded = true) : it.wait = .nextWindow := by
  obtain ⟨j, stj, st', hstep⟩ := runWorkerLoop_mem_step env topic fuel i st it hmem
  unfold WorkerIter.commitSucceeded at hs
  rcases hc : it.commit with _ | ⟨n, s, e⟩
  · rw [hc] at hs; simp at hs
  · rw [hc] at hs
    cases s with
    | false => simp at hs
    | true => exact ((workerStep_facts env topic j stj it st' hstep).2.1 n e hc).2

/-! ## Reputer-loop lemmas -/

theorem reputerStep_heightError (env : ReputerEnv) (topic : Topic) (i : Nat)
    (st : ReputerState) (h : env.getCurrentChainBlockHeight i = none) :
    reputerIterStep env topic i st = .heightError := by
  unfold reputerIterStep
  rw [h]

theorem reputerTail_step_facts (env : ReputerEnv) (topic : Topic) (i : Nat)
    (cb : Int) (ro : Bool) (w1 : AnticipatedWindow) (fetched : Option (Nonce × Bool))
    (nonce : Option Nonce) (mustGet mrr : Bool) (it : ReputerIter) (st' : ReputerState)
    (h : reputerIterTail env topic i cb ro w1 fetched nonce mustGet mrr = .step it st') :
    it.fetchFailed = false ∧ it.nonceFetch = fetched ∧
    (∀ nh e, it.commit = some (nh, true, e) →
      st'.mustRecalcOpenNonceWindow = true ∧ st'.mustGetOpenNonce = true ∧
      st'.mustRecalcReputerWindow = true ∧ it.wait = some .nextWindow) ∧
    (∀ nh e, it.commit = some (nh, false, e) →
      it.wait = some .short ∧ st'.mustRecalcOpenNonceWindow = false ∧
      st'.mustRecalcReputerWindow = false ∧ st'.mustGetOpenNonce = mustGet) := by
  unfold reputerIterTail at h
  rcases nonce with _ | n
  · exact absurd h (by simp)
  · simp only at h
    split_ifs at h with h1 h2 <;> cases h <;> simp_all

theorem reputerStep_facts (env : ReputerEnv) (topic : Topic) (i : Nat)
    (st : ReputerState) (it : ReputerIter) (st' : ReputerState)
    (h : reputerIterStep env topic i st = .step it st') :
    (it.fetchFailed = true →
      it.commit = none ∧ it.wait = none ∧ st'.mustGetOpenNonce = true ∧
      st'.mustRecalcOpenNonceWindow = false ∧
      st'.mustRecalcReputerWindow = st.mustRecalcReputerWindow) ∧
    (∀ nh e, it.commit = some (nh, true, e) →
      st'.mustRecalcOpenNonceWindow = true ∧ st'.mustGetOpenNonce = true ∧
      st'.mustRecalcReputerWindow = true ∧ it.wait = some .nextWindow) ∧
    (∀ nh e, it.commit = some (nh, false, e) →
      it.wait = some .short ∧ st'.mustRecalcOpenNonceWindow = false ∧
      st'.mustRecalcReputerWindow = false ∧
      st'.mustGetOpenNonce = (st.mustGetOpenNonce && it.nonceFetch.isNone)) := by
  unfold reputerIterStep at h
  rcases hcb : env.getCurrentChainBlockHeight i with _ | cb
  · rw [hcb] at h; exact absurd h (by simp)
  · rw [hcb] at h
    simp only at h
    split_ifs at h <;>
      first
      | (cases h; simp_all)
      | (have hf := reputerTail_step_facts _ _ _ _ _ _ _ _ _ _ _ _ h
         refine ⟨fun hff => absurd hff (by simp [hf.1]), hf.2.2.1, fun nh e hc => ?_⟩
         have h4 := hf.2.2.2 nh e hc
         refine ⟨h4.1, h4.2.1, h4.2.2.1, ?_⟩
         rw [h4.2.2.2, hf.2.1]
         simp)

theorem runReputerLoop_heightError (env : ReputerEnv) (topic : Topic) (fuel i : Nat)
    (st : ReputerState) (h : env.getCurrentChainBlockHeight i = none) :
    runReputerLoop env topic (fuel + 1) i st = ([], .heightError) := by
  simp [runReputerLoop, reputerStep_heightError env topic i st h]

/-! ## Concrete environments used by the witnesses and counterexamples -/

/-- Worker environment on which every call succeeds and the commit succeeds. -/
def wEnvSuccess : WorkerEnv where
  getTopicById := some ⟨1, 10⟩
  registerWorkerIdempotently := true
  getCurrentChainBlockHeight := fun _ => some 5
  calcWorkerSoonestAnticipatedWindow := fun _ _ _ => ⟨0, 10⟩
  getLatestOpenWorkerNonceByTopicId := fun _ => (⟨7⟩, false)
  buildCommitWorkerPayload := fun _ _ => (true, false)

/-- Worker environment whose commit attempt fails (with an error). -/
def wEnvFailure : WorkerEnv :=
  { wEnvSuccess with buildCommitWorkerPayload := fun _ _ => (false, true) }

/-- Worker environment whose chain-height fetch always errs. -/
def wEnvHeightErr : WorkerEnv :=
  { wEnvSuccess with getCurrentChainBlockHeight := fun _ => none }

/-- Worker environment whose idempotent registration reports failure. -/
def wEnvRegFail : WorkerEnv :=
  { wEnvSuccess with registerWorkerIdempotently := false }

/-- Worker environment whose topic fetch errs. -/
def wEnvTopicErr : WorkerEnv :=
  { wEnvSuccess with getTopicById := none }

/-- Reputer environment on which every call succeeds and the commit succeeds. -/
def rEnvSuccess : ReputerEnv where
  getTopicById := some ⟨1, 10⟩
  registerAndStakeReputerIdempotently := true
  getCurrentChainBlockHeight := fun _ => some 5
  calcWorkerSoonestAnticipatedWindow := fun _ _ _ => ⟨0, 10⟩
  getLatestOpenWorkerNonceByTopicId := fun _ => (⟨7⟩, false)
  calcReputerSoonestAnticipatedWindow := fun _ _ _ => ⟨0, 10⟩
  buildCommitReputerPayload := fun _ _ => (true, false)

/-- Reputer environment whose commit attempt fails. -/
def rEnvFailure : ReputerEnv :=
  { rEnvSuccess with buildCommitReputerPayload := fun _ _ => (false, false) }

/-- Reputer environment whose chain-height fetch always errs. -/
def rEnvHeightErr : ReputerEnv :=
  { rEnvSuccess with getCurrentChainBlockHeight := fun _ => none }

/-- Reputer environment whose registration-and-staking reports failure. -/
def rEnvRegFail : ReputerEnv :=
  { rEnvSuccess with registerAndStakeReputerIdempotently := false }

/-- Reputer environment whose topic fetch errs. -/
def rEnvTopicErr : ReputerEnv :=
  { rEnvSuccess with getTopicById := none }

/-! ## Claim theorems -/

/-- C5: for both roles, when the idempotent registration call reports
failure the loop returns immediately: the outcome is `registerFailed` and no
loop iteration (hence no window computation, no chain-height fetch, no nonce
fetch and no commit attempt) ever occurs for that loop. -/
theorem register_failure_fatal (wenv : WorkerEnv) (renv : ReputerEnv)
    (wt rt : Topic) (fuel : Nat)
    (hwt : wenv.getTopicById = some wt) (hwr : wenv.registerWorkerIdempotently = false)
    (hrt : renv.getTopicById = some rt)
    (hrr : renv.registerAndStakeReputerIdempotently = false) :
    runWorkerProcess wenv fuel = .registerFailed wt ∧
    (runWorkerProcess wenv fuel).iters = [] ∧
    runReputerProcess renv fuel = .registerFailed rt ∧
    (runReputerProcess renv fuel).iters = [] := by
  have h1 : runWorkerProcess wenv fuel = .registerFailed wt := by
    unfold runWorkerProcess
    rw [hwt]
    simp [hwr]
  have h2 : runReputerProcess renv fuel = .registerFailed rt := by
    unfold runReputerProcess
    rw [hrt]
    simp [hrr]
  exact ⟨h1, by rw [h1]; rfl, h2, by rw [h2]; rfl⟩

/-- Witness for C5 at concrete environments with failing registration. -/
theorem register_failure_fatal_witness :
    runWorkerProcess wEnvRegFail 5 = .registerFailed ⟨1, 10⟩ ∧
    (runWorkerProcess wEnvRegFail 5).iters = [] ∧
    runReputerProcess rEnvRegFail 5 = .registerFailed ⟨1, 10⟩ ∧
    (runReputerProcess rEnvRegFail 5).iters = [] :=
  register_failure_fatal wEnvRegFail rEnvRegFail ⟨1, 10⟩ ⟨1, 10⟩ 5 rfl rfl rfl rfl

/-- C10: for both roles, an error from `GetTopicById` at loop start is fatal
to that loop: the outcome is `topicError` and no loop iteration (hence no
registration, no window computation, no nonce fetch and no commit attempt)
ever occurs for that loop. -/
theorem topic_error_fatal (wenv : WorkerEnv) (renv : ReputerEnv) (fuel : Nat)
    (hwt : wenv.getTopicById = none) (hrt : renv.getTopicById = none) :
    runWorkerProcess wenv fuel = .topicError ∧
    (runWorkerProcess wenv fuel).iters = [] ∧
    runReputerProcess renv fuel = .topicError ∧
    (runReputerProcess renv fuel).iters = [] := by
  have h1 : runWorkerProcess wenv fuel = .topicError := by
    unfold runWorkerProcess
    rw [hwt]
  have h2 : runReputerProcess renv fuel = .topicError := by
    unfold runReputerProcess
    rw [hrt]
  exact ⟨h1, by rw [h1]; rfl, h2, by rw [h2]; rfl⟩

/-- Witness for C10 at concrete environments with failing topic fetch. -/
theorem topic_error_fatal_witness :
    runWorkerProcess wEnvTopicErr 5 = .topicError ∧
    (runWorkerProcess wEnvTopicErr 5).iters = [] ∧
    runReputerProcess rEnvTopicErr 5 = .topicError ∧
    (runReputerProcess rEnvTopicErr 5).iters = [] :=
  topic_error_fatal wEnvTopicErr rEnvTopicErr 5 rfl rfl

/-- C6: in every iteration of either loop, an error from
`GetCurrentChainBlockHeight` is fatal to that loop only: from the erring
iteration on, the loop records no further iteration (no window computation,
no commit attempt) and stops with `heightError`; and the outcome of every
other launched loop is unchanged, since each launched task is a function of
its own configuration and environment alone (no shared state). -/
theorem height_error_fatal_and_isolated :
    (∀ (env : WorkerEnv) (topic : Topic) (fuel i : Nat) (st : WorkerState),
      env.getCurrentChainBlockHeight i = none →
      runWorkerLoop env topic (fuel + 1) i st = ([], .heightError)) ∧
    (∀ (env : ReputerEnv) (topic : Topic) (fuel i : Nat) (st : ReputerState),
      env.getCurrentChainBlockHeight i = none →
      runReputerLoop env topic (fuel + 1) i st = ([], .heightError)) ∧
    (∀ (envOf envOf' : WorkerConfig → WorkerEnv) (node : NodeConfig) (fuel : Nat)
      (c0 : WorkerConfig), (∀ c, c ≠ c0 → envOf c = envOf' c) →
      ∀ c ∈ (Spawn node).workerTasks, c ≠ c0 →
        runWorkerProcess (envOf c) fuel = runWorkerProcess (envOf' c) fuel) ∧
    (∀ (envOf envOf' : ReputerConfig → ReputerEnv) (node : NodeConfig) (fuel : Nat)
      (c0 : ReputerConfig), (∀ c, c ≠ c0 → envOf c = envOf' c) →
      ∀ c ∈ (Spawn node).reputerTasks, c ≠ c0 →
        runReputerProcess (envOf c) fuel = runReputerProcess (envOf' c) fuel) := by
  refine ⟨fun env topic fuel i st h => runWorkerLoop_heightError env topic fuel i st h,
    fun env topic fuel i st h => runReputerLoop_heightError env topic fuel i st h,
    fun envOf envOf' node fuel c0 hagree c _ hne => by rw [hagree c hne],
    fun envOf envOf' node fuel c0 hagree c _ hne => by rw [hagree c hne]⟩

/-- Witness for C6 at concrete environments whose height fetch errs, and at
a concrete two-task configuration. -/
theorem height_error_fatal_and_isolated_witness :
    runWorkerLoop wEnvHeightErr ⟨1, 10⟩ (2 + 1) 0 ⟨true, AnticipatedWindow.zero⟩ =
      ([], .heightError) ∧
    runReputerLoop rEnvHeightErr ⟨1, 10⟩ (2 + 1) 0
      ⟨none, true, true, true, AnticipatedWindow.zero⟩ = ([], .heightError) ∧
    runWorkerProcess wEnvHeightErr 1 = runWorkerProcess wEnvHeightErr 1 ∧
    runReputerProcess rEnvHeightErr 1 = runReputerProcess rEnvHeightErr 1 :=
  ⟨height_error_fatal_and_isolated.1 wEnvHeightErr ⟨1, 10⟩ 2 0
      ⟨true, AnticipatedWindow.zero⟩ rfl,
   height_error_fatal_and_isolated.2.1 rEnvHeightErr ⟨1, 10⟩ 2 0
      ⟨none, true, true, true, AnticipatedWindow.zero⟩ rfl,
   height_error_fatal_and_isolated.2.2.1 (fun _ => wEnvHeightErr) (fun _ => wEnvHeightErr)
      ⟨[⟨1⟩], []⟩ 1 ⟨2⟩ (fun _ _ => rfl) ⟨1⟩ (by decide) (by decide),
   height_error_fatal_and_isolated.2.2.2 (fun _ => rEnvHeightErr) (fun _ => rEnvHeightErr)
      ⟨[], [⟨1⟩]⟩ 1 ⟨2⟩ (fun _ _ => rfl) ⟨1⟩ (by decide) (by decide)⟩

/-- C7: in the worker loop, a successful commit attempt marks the window
stale (`mustRecalcWindow` set, so the next iteration recomputes it) and the
iteration ends with the next-window-start wait; an unsuccessful commit
attempt leaves the staleness flag cleared and the iteration ends with the
short within-window wait. -/
theorem worker_commit_success_staleness (env : WorkerEnv) (topic : Topic) (i : Nat)
    (st : WorkerState) (it : WorkerIter) (st' : WorkerState)
    (h : workerIterStep env topic i st = .step it st') :
    (∀ n e, it.commit = some (n, true, e) →
      st'.mustRecalcWindow = true ∧ it.wait = .nextWindow) ∧
    (∀ n e, it.commit = some (n, false, e) →
      st'.mustRecalcWindow = false ∧ it.wait = .short) :=
  ⟨(workerStep_facts env topic i st it st' h).2.1,
   (workerStep_facts env topic i st it st' h).2.2.1⟩

/-- Witness for C7: a concrete successful iteration and a concrete failed
iteration of the worker loop. -/
theorem worker_commit_success_staleness_witness :
    ((⟨true, ⟨0, 10⟩⟩ : WorkerState).mustRecalcWindow = true ∧
      (⟨5, true, ⟨0, 10⟩, true, some (⟨7⟩, false), some (⟨7⟩, true, false),
        .nextWindow⟩ : WorkerIter).wait = .nextWindow) ∧
    ((⟨false, ⟨0, 10⟩⟩ : WorkerState).mustRecalcWindow = false ∧
      (⟨5, true, ⟨0, 10⟩, true, some (⟨7⟩, false), some (⟨7⟩, false, true),
        .short⟩ : WorkerIter).wait = .short) :=
  ⟨(worker_commit_success_staleness wEnvSuccess ⟨1, 10⟩ 0 ⟨true, AnticipatedWindow.zero⟩
      ⟨5, true, ⟨0, 10⟩, true, some (⟨7⟩, false), some (⟨7⟩, true, false), .nextWindow⟩
      ⟨true, ⟨0, 10⟩⟩ (by decide)).1 ⟨7⟩ false (by decide),
   (worker_commit_success_staleness wEnvFailure ⟨1, 10⟩ 0 ⟨true, AnticipatedWindow.zero⟩
      ⟨5, true, ⟨0, 10⟩, true, some (⟨7⟩, false), some (⟨7⟩, false, true), .short⟩
      ⟨false, ⟨0, 10⟩⟩ (by decide)).2 ⟨7⟩ true (by decide)⟩

/-- C8: in the reputer loop, a successful commit attempt resets all three
staleness flags (`mustRecalcOpenNonceWindow`, `mustGetOpenNonce`,
`mustRecalcReputerWindow`) to true and the iteration ends with the
worker-anchored next-window-start wait; an unsuccessful commit attempt ends
with the short within-window wait and leaves the flags as the iteration's
earlier phases set them: both recomputation flags stay cleared and
`mustGetOpenNonce` keeps its value from the fetch phase (cleared exactly
when this iteration fetched a nonce). -/
theorem reputer_commit_success_staleness (env : ReputerEnv) (topic : Topic) (i : Nat)
    (st : ReputerState) (it : ReputerIter) (st' : ReputerState)
    (h : reputerIterStep env topic i st = .step it st') :
    (∀ nh e, it.commit = some (nh, true, e) →
      st'.mustRecalcOpenNonceWindow = true ∧ st'.mustGetOpenNonce = true ∧
      st'.mustRecalcReputerWindow = true ∧ it.wait = some .nextWindow) ∧
    (∀ nh e, it.commit = some (nh, false, e) →
      it.wait = some .short ∧ st'.mustRecalcOpenNonceWindow = false ∧
      st'.mustRecalcReputerWindow = false ∧
      st'.mustGetOpenNonce = (st.mustGetOpenNonce && it.nonceFetch.isNone)) :=
  ⟨(reputerStep_facts env topic i st it st' h).2.1,
   (reputerStep_facts env topic i st it st' h).2.2⟩

/-- Witness for C8: a concrete successful iteration and a concrete failed
iteration of the reputer loop. -/
theorem reputer_commit_success_staleness_witness :
    ((⟨some ⟨7⟩, true, true, true, ⟨0, 10⟩⟩ : ReputerState).mustRecalcOpenNonceWindow = true ∧
      (⟨some ⟨7⟩, true, true, true, ⟨0, 10⟩⟩ : ReputerState).mustGetOpenNonce = true ∧
      (⟨some ⟨7⟩, true, true, true, ⟨0, 10⟩⟩ : ReputerState).mustRecalcReputerWindow = true ∧
      (⟨5, true, some (⟨7⟩, false), false, true, ⟨0, 10⟩, some (7, true, false),
        some .nextWindow⟩ : ReputerIter).wait = some .nextWindow) ∧
    ((⟨5, true, some (⟨7⟩, false), false, true, ⟨0, 10⟩, some (7, false, false),
        some .short⟩ : ReputerIter).wait = some .short ∧
      (⟨some ⟨7⟩, false, false, false, ⟨0, 10⟩⟩ : ReputerState).mustRecalcOpenNonceWindow = false ∧
      (⟨some ⟨7⟩, false, false, false, ⟨0, 10⟩⟩ : ReputerState).mustRecalcReputerWindow = false ∧
      (⟨some ⟨7⟩, false, false, false, ⟨0, 10⟩⟩ : ReputerState).mustGetOpenNonce =
        ((⟨none, true, true, true, AnticipatedWindow.zero⟩ : ReputerState).mustGetOpenNonce &&
          (⟨5, true, some (⟨7⟩, false), false, true, ⟨0, 10⟩, some (7, false, false),
            some .short⟩ : ReputerIter).nonceFetch.isNone)) :=
  ⟨(reputer_commit_success_staleness rEnvSuccess ⟨1, 10⟩ 0
      ⟨none, true, true, true, AnticipatedWindow.zero⟩
      ⟨5, true, some (⟨7⟩, false), false, true, ⟨0, 10⟩, some (7, true, false), some .nextWindow⟩
      ⟨some ⟨7⟩, true, true, true, ⟨0, 10⟩⟩ (by decide)).1 7 false (by decide),
   (reputer_commit_success_staleness rEnvFailure ⟨1, 10⟩ 0
      ⟨none, true, true, true, AnticipatedWindow.zero⟩
      ⟨5, true, some (⟨7⟩, false), false, true, ⟨0, 10⟩, some (7, false, false), some .short⟩
      ⟨some ⟨7⟩, false, false, false, ⟨0, 10⟩⟩ (by decide)).2 7 false (by decide)⟩

/-- Reputer environment whose first computed open-nonce window lies ahead of
the current height (height 5, window `[10, 20]`); no nonce is ever fetched. -/
def rEnvOutsideWindow : ReputerEnv :=
  { rEnvSuccess with calcWorkerSoonestAnticipatedWindow := fun _ _ _ => ⟨10, 20⟩ }

/-- Reputer environment whose nonce fetch returns the `BlockHeight == 0`
sentinel inside the open-nonce window. -/
def rEnvFetchFail : ReputerEnv :=
  { rEnvSuccess with getLatestOpenWorkerNonceByTopicId := fun _ => (⟨0⟩, false) }

/-- Worker environment whose nonce fetch returns the `BlockHeight == 0`
sentinel inside the window. -/
def wEnvFetchFail : WorkerEnv :=
  { wEnvSuccess with getLatestOpenWorkerNonceByTopicId := fun _ => (⟨0⟩, false) }

/-- Reputer environment for the stale-sentinel scenario: at height 2 the
open-nonce window is `[0, 10]` and the fetch returns the sentinel (no nonce
open yet); at height 12 the loop is outside the open-nonce window, so no
refetch happens, and the reputer window recomputed from the retained
sentinel (anchor 0) is `[10, 30]`, which contains height 12. -/
def rEnvStaleSentinel : ReputerEnv where
  getTopicById := some ⟨1, 100⟩
  registerAndStakeReputerIdempotently := true
  getCurrentChainBlockHeight := fun i => some (if i = 0 then 2 else 12)
  calcWorkerSoonestAnticipatedWindow := fun _ _ _ => ⟨0, 10⟩
  getLatestOpenWorkerNonceByTopicId := fun _ => (⟨0⟩, false)
  calcReputerSoonestAnticipatedWindow := fun _ _ _ => ⟨10, 30⟩
  buildCommitReputerPayload := fun _ _ => (false, false)

/-- C3: the claim fails on the code, whose own intent (per the gating
described in the spec) it contradicts: `mustRecalcReputerWindow` alone gates
the recomputation, so on the first iteration, when the current height lies
outside the open-nonce window and no nonce was ever fetched, the loop still
reaches `CalcReputerSoonestAnticipatedWindow` and dereferences the nil
`latestOpenReputerNonce` (a runtime panic), recorded as `nilNonceCrash`. -/
theorem reputer_window_recalc_nil_nonce_crash :
    runReputerProcess rEnvOutsideWindow 1 = .ran ⟨1, 10⟩ [] .nilNonceCrash := by
  decide

/-- C1 counterexample: in the reputer loop the fetch gate only skips the
fetching iteration.  Iteration 0 fetches the `BlockHeight == 0` sentinel and
`continue`s, but the sentinel is retained in `latestOpenReputerNonce`;
iteration 1 is outside the open-nonce window, so no refetch happens, the
reputer window is recomputed from the sentinel, and
`BuildCommitReputerPayload` is attempted with nonce block height 0. -/
theorem reputer_commits_stale_sentinel_nonce :
    (0 : Int) ∈ (runReputerProcess rEnvStaleSentinel 2).commitHeights := by
  decide

/-- C1 amended: in the worker loop, no commit attempt is ever made with a
nonce whose `BlockHeight == 0` (the nonce is re-fetched every iteration and
the gate excludes the sentinel and the error case); in the reputer loop the
gate excludes the commit only within the iteration of the failed fetch (that
iteration commits nothing and keeps `mustGetOpenNonce` set), while a
sentinel nonce retained from a failed fetch may be used by a later
iteration's commit attempt. -/
theorem commit_nonce_gate :
    (∀ (env : WorkerEnv) (topic : Topic) (fuel i : Nat) (st : WorkerState)
      (it : WorkerIter), it ∈ (runWorkerLoop env topic fuel i st).1 →
      ∀ n s e, it.commit = some (n, s, e) → n.BlockHeight ≠ 0) ∧
    (∀ (env : ReputerEnv) (topic : Topic) (i : Nat) (st : ReputerState)
      (it : ReputerIter) (st' : ReputerState),
      reputerIterStep env topic i st = .step it st' → it.fetchFailed = true →
      it.commit = none ∧ st'.mustGetOpenNonce = true) :=
  ⟨fun env topic fuel i st it hmem n s e hc =>
      runWorkerLoop_commit_ne_zero env topic fuel i st it hmem n s e hc,
   fun env topic i st it st' h hff =>
      ⟨((reputerStep_facts env topic i st it st' h).1 hff).1,
       ((reputerStep_facts env topic i st it st' h).1 hff).2.2.1⟩⟩

/-- Witness for the amended C1: a concrete worker-loop commit (nonce block
height 7) and a concrete failed-fetch reputer iteration. -/
theorem commit_nonce_gate_witness :
    (⟨7⟩ : Nonce).BlockHeight ≠ 0 ∧
    (⟨5, true, some (⟨0⟩, false), true, false, ⟨0, 10⟩, none, none⟩ : ReputerIter).commit =
      none ∧
    (⟨some ⟨0⟩, false, true, true, ⟨0, 10⟩⟩ : ReputerState).mustGetOpenNonce = true :=
  ⟨commit_nonce_gate.1 wEnvSuccess ⟨1, 10⟩ 1 0 ⟨true, AnticipatedWindow.zero⟩
      ⟨5, true, ⟨0, 10⟩, true, some (⟨7⟩, false), some (⟨7⟩, true, false), .nextWindow⟩
      (by decide) ⟨7⟩ true false (by decide),
   (commit_nonce_gate.2 rEnvFetchFail ⟨1, 10⟩ 0 ⟨none, true, true, true, AnticipatedWindow.zero⟩
      ⟨5, true, some (⟨0⟩, false), true, false, ⟨0, 10⟩, none, none⟩
      ⟨some ⟨0⟩, false, true, true, ⟨0, 10⟩⟩ (by decide) rfl).1,
   (commit_nonce_gate.2 rEnvFetchFail ⟨1, 10⟩ 0 ⟨none, true, true, true, AnticipatedWindow.zero⟩
      ⟨5, true, some (⟨0⟩, false), true, false, ⟨0, 10⟩, none, none⟩
      ⟨some ⟨0⟩, false, true, true, ⟨0, 10⟩⟩ (by decide) rfl).2⟩

/-- C4 counterexample: a failed nonce fetch in the reputer loop `continue`s
with no wait at all: the failing iteration's record shows the failed fetch
(`fetchFailed = true`) and `wait = none` — the short backoff the claim
requires is not performed. -/
theorem reputer_fetch_failure_no_backoff :
    runReputerProcess rEnvFetchFail 1 =
      .ran ⟨1, 10⟩ [⟨5, true, some (⟨0⟩, false), true, false, ⟨0, 10⟩, none, none⟩]
        .fuelOut := by
  decide

/-- C4 amended: recoverable failures retry within the same window without
advancing epoch state (no window recomputation is scheduled, registration is
outside the loop), with the short backoff wait in every case except the
reputer loop's failed nonce fetch, which restarts immediately with no wait:
(a) a worker iteration whose nonce fetch returns the sentinel or an error
skips the commit, ends with the short wait and leaves the window flag
cleared; (b) a worker iteration whose commit fails ends with the short wait
and leaves the window flag cleared; (c) a reputer iteration whose commit
fails ends with the short wait and leaves both recomputation flags cleared;
(d) a reputer iteration whose nonce fetch fails commits nothing, keeps
`mustGetOpenNonce` set, leaves `mustRecalcReputerWindow` unchanged and
restarts with no wait. -/
theorem recoverable_failure_backoff :
    (∀ (env : WorkerEnv) (topic : Topic) (i : Nat) (st : WorkerState)
      (it : WorkerIter) (st' : WorkerState),
      workerIterStep env topic i st = .step it st' →
      ∀ f, it.nonceFetch = some f → (f.1.BlockHeight = 0 ∨ f.2 = true) →
        it.commit = none ∧ it.wait = .short ∧ st'.mustRecalcWindow = false) ∧
    (∀ (env : WorkerEnv) (topic : Topic) (i : Nat) (st : WorkerState)
      (it : WorkerIter) (st' : WorkerState),
      workerIterStep env topic i st = .step it st' →
      ∀ n e, it.commit = some (n, false, e) →
        st'.mustRecalcWindow = false ∧ it.wait = .short) ∧
    (∀ (env : ReputerEnv) (topic : Topic) (i : Nat) (st : ReputerState)
      (it : ReputerIter) (st' : ReputerState),
      reputerIterStep env topic i st = .step it st' →
      ∀ nh e, it.commit = some (nh, false, e) →
        it.wait = some .short ∧ st'.mustRecalcOpenNonceWindow = false ∧
        st'.mustRecalcReputerWindow = false) ∧
    (∀ (env : ReputerEnv) (topic : Topic) (i : Nat) (st : ReputerState)
      (it : ReputerIter) (st' : ReputerState),
      reputerIterStep env topic i st = .step it st' → it.fetchFailed = true →
      it.commit = none ∧ it.wait = none ∧ st'.mustGetOpenNonce = true ∧
      st'.mustRecalcOpenNonceWindow = false ∧
      st'.mustRecalcReputerWindow = st.mustRecalcReputerWindow) :=
  ⟨fun env topic i st it st' h => (workerStep_facts env topic i st it st' h).2.2.2,
   fun env topic i st it st' h => (workerStep_facts env topic i st it st' h).2.2.1,
   fun env topic i st it st' h nh e hc =>
      ⟨((reputerStep_facts env topic i st it st' h).2.2 nh e hc).1,
       ((reputerStep_facts env topic i st it st' h).2.2 nh e hc).2.1,
       ((reputerStep_facts env topic i st it st' h).2.2 nh e hc).2.2.1⟩,
   fun env topic i st it st' h hff => (reputerStep_facts env topic i st it st' h).1 hff⟩

/-- Witness for the amended C4 at concrete failing iterations of each kind. -/
theorem recoverable_failure_backoff_witness :
    ((⟨5, true, ⟨0, 10⟩, true, some (⟨0⟩, false), none, .short⟩ : WorkerIter).commit = none ∧
      (⟨5, true, ⟨0, 10⟩, true, some (⟨0⟩, false), none, .short⟩ : WorkerIter).wait = .short ∧
      (⟨false, ⟨0, 10⟩⟩ : WorkerState).mustRecalcWindow = false) ∧
    ((⟨false, ⟨0, 10⟩⟩ : WorkerState).mustRecalcWindow = false ∧
      (⟨5, true, ⟨0, 10⟩, true, some (⟨7⟩, false), some (⟨7⟩, false, true),
        .short⟩ : WorkerIter).wait = .short) ∧
    ((⟨5, true, some (⟨7⟩, false), false, true, ⟨0, 10⟩, some (7, false, false),
        some .short⟩ : ReputerIter).wait = some .short ∧
      (⟨some ⟨7⟩, false, false, false, ⟨0, 10⟩⟩ : ReputerState).mustRecalcOpenNonceWindow =
        false ∧
      (⟨some ⟨7⟩, false, false, false, ⟨0, 10⟩⟩ : ReputerState).mustRecalcReputerWindow =
        false) ∧
    ((⟨5, true, some (⟨0⟩, false), true, false, ⟨0, 10⟩, none, none⟩ : ReputerIter).commit =
        none ∧
      (⟨5, true, some (⟨0⟩, false), true, false, ⟨0, 10⟩, none, none⟩ : ReputerIter).wait =
        none ∧
      (⟨some ⟨0⟩, false, true, true, ⟨0, 10⟩⟩ : ReputerState).mustGetOpenNonce = true ∧
      (⟨some ⟨0⟩, false, true, true, ⟨0, 10⟩⟩ : ReputerState).mustRecalcOpenNonceWindow =
        false ∧
      (⟨some ⟨0⟩, false, true, true, ⟨0, 10⟩⟩ : ReputerState).mustRecalcReputerWindow =
        (⟨none, true, true, true, AnticipatedWindow.zero⟩ : ReputerState).mustRecalcReputerWindow) :=
  ⟨recoverable_failure_backoff.1 wEnvFetchFail ⟨1, 10⟩ 0 ⟨true, AnticipatedWindow.zero⟩
      ⟨5, true, ⟨0, 10⟩, true, some (⟨0⟩, false), none, .short⟩ ⟨false, ⟨0, 10⟩⟩
      (by decide) (⟨0⟩, false) (by decide) (Or.inl rfl),
   recoverable_failure_backoff.2.1 wEnvFailure ⟨1, 10⟩ 0 ⟨true, AnticipatedWindow.zero⟩
      ⟨5, true, ⟨0, 10⟩, true, some (⟨7⟩, false), some (⟨7⟩, false, true), .short⟩
      ⟨false, ⟨0, 10⟩⟩ (by decide) ⟨7⟩ true (by decide),
   recoverable_failure_backoff.2.2.1 rEnvFailure ⟨1, 10⟩ 0
      ⟨none, true, true, true, AnticipatedWindow.zero⟩
      ⟨5, true, some (⟨7⟩, false), false, true, ⟨0, 10⟩, some (7, false, false), some .short⟩
      ⟨some ⟨7⟩, false, false, false, ⟨0, 10⟩⟩ (by decide) 7 false (by decide),
   recoverable_failure_backoff.2.2.2 rEnvFetchFail ⟨1, 10⟩ 0
      ⟨none, true, true, true, AnticipatedWindow.zero⟩
      ⟨5, true, some (⟨0⟩, false), true, false, ⟨0, 10⟩, none, none⟩
      ⟨some ⟨0⟩, false, true, true, ⟨0, 10⟩⟩ (by decide) rfl⟩

/-! ## One successful commit per epoch cycle (worker loop) -/

/-- Modelled from the spec: the epoch cycle index of a block height for a
topic with epoch length `E` — cycle `k` covers heights `[k*E, (k+1)*E)`. -/
def epochCycle (E h : Int) : Int := h / E

/-- Modelled from the spec: the contract of the monotone chain clock and of
`WaitForNextAnticipatedWindowToStart` (which suspends until the estimated
start of the next epoch window and never returns early), stated over two
consecutive recorded iterations: heights never decrease, and after an
iteration that ended with the next-window wait the next observed height is
at or past the next multiple of the epoch length. -/
def workerWaitContract (E : Int) (a b : WorkerIter) : Prop :=
  a.height ≤ b.height ∧
    (a.wait = .nextWindow → (a.height / E + 1) * E ≤ b.height)

instance (E : Int) (a b : WorkerIter) : Decidable (workerWaitContract E a b) := by
  unfold workerWaitContract
  infer_instance

/-- C9: for a topic with epoch length `E > 0` and any run of the worker loop
whose recorded heights satisfy the chain-clock/next-window-wait contract,
two successful commit attempts at distinct iterations lie in distinct epoch
cycles (the later one strictly later): after a successful commit the loop
always performs the next-window wait and recomputes before any further
attempt, so at most one successful commit occurs per epoch cycle. -/
theorem worker_one_success_per_epoch (env : WorkerEnv) (topic : Topic)
    (fuel i0 : Nat) (st : WorkerState)
    (hE : 0 < topic.EpochLength)
    (hchain : List.Chain' (workerWaitContract topic.EpochLength)
      (runWorkerLoop env topic fuel i0 st).1)
    (i j : Nat) (a b : WorkerIter) (hij : i < j)
    (ha : (runWorkerLoop env topic fuel i0 st).1.get? i = some a)
    (hb : (runWorkerLoop env topic fuel i0 st).1.get? j = some b)
    (hsa : a.commitSucceeded = true) (hsb : b.commitSucceeded = true) :
    epochCycle topic.EpochLength a.height < epochCycle topic.EpochLength b.height := by
  set l := (runWorkerLoop env topic fuel i0 st).1 with hl
  have hilen : i < l.length := (List.get?_eq_some.mp ha).1
  have hjlen : j < l.length := (List.get?_eq_some.mp hb).1
  have hage : l.get ⟨i, hilen⟩ = a := by
    rw [List.get?_eq_get hilen] at ha
    exact Option.some_inj.mp ha
  have hbge : l.get ⟨j, hjlen⟩ = b := by
    rw [List.get?_eq_get hjlen] at hb
    exact Option.some_inj.mp hb
  subst hage hbge
  have hi1len : i + 1 < l.length := by omega
  have hwait : (l.get ⟨i, hilen⟩).wait = .nextWindow :=
    runWorkerLoop_success_wait env topic fuel i0 st _ (l.get_mem i hilen) hsa
  have hstep := List.chain'_iff_get.mp hchain i (by omega)
  have hwaitstep : ((l.get ⟨i, hilen⟩).height / topic.EpochLength + 1) * topic.EpochLength ≤
      (l.get ⟨i + 1, hi1len⟩).height := hstep.2 hwait
  haveI : IsTrans WorkerIter (fun x y : WorkerIter => x.height ≤ y.height) :=
    ⟨fun _ _ _ => le_trans⟩
  have hpw : List.Pairwise (fun x y : WorkerIter => x.height ≤ y.height) l :=
    List.chain'_iff_pairwise.mp (List.Chain'.imp (fun _ _ h => h.1) hchain)
  have hmono : (l.get ⟨i + 1, hi1len⟩).height ≤ (l.get ⟨j, hjlen⟩).height := by
    rcases Nat.lt_or_ge (i + 1) j with hlt | hge
    · exact List.pairwise_iff_get.mp hpw ⟨i + 1, hi1len⟩ ⟨j, hjlen⟩ hlt
    · have hj1 : i + 1 = j := by omega
      subst hj1
      exact le_refl _
  have hkey : (l.get ⟨i, hilen⟩).height / topic.EpochLength + 1 ≤
      (l.get ⟨j, hjlen⟩).height / topic.EpochLength := by
    rw [Int.le_ediv_iff_mul_le hE]
    exact le_trans hwaitstep hmono
  unfold epochCycle
  exact Int.lt_iff_add_one_le.mpr hkey

/-- Worker environment for the per-epoch witness: two successful commits in
consecutive epoch cycles of a topic with epoch length 10 (heights 3 and 13,
windows `[0, 5]` and `[10, 15]`). -/
def c9Env : WorkerEnv where
  getTopicById := some ⟨1, 10⟩
  registerWorkerIdempotently := true
  getCurrentChainBlockHeight := fun i => some (if i = 0 then 3 else 13)
  calcWorkerSoonestAnticipatedWindow := fun i _ _ => if i = 0 then ⟨0, 5⟩ else ⟨10, 15⟩
  getLatestOpenWorkerNonceByTopicId := fun _ => (⟨3⟩, false)
  buildCommitWorkerPayload := fun _ _ => (true, false)

/-- Witness for C9: the two successful commits of the concrete run above lie
in distinct epoch cycles (cycle 0 and cycle 1). -/
theorem worker_one_success_per_epoch_witness :
    epochCycle (⟨1, 10⟩ : Topic).EpochLength
        (⟨3, true, ⟨0, 5⟩, true, some (⟨3⟩, false), some (⟨3⟩, true, false),
          .nextWindow⟩ : WorkerIter).height <
      epochCycle (⟨1, 10⟩ : Topic).EpochLength
        (⟨13, true, ⟨10, 15⟩, true, some (⟨3⟩, false), some (⟨3⟩, true, false),
          .nextWindow⟩ : WorkerIter).height :=
  worker_one_success_per_epoch c9Env ⟨1, 10⟩ 2 0 ⟨true, AnticipatedWindow.zero⟩
    (by decide)
    (List.chain'_pair.mpr ⟨by decide, fun _ => by decide⟩)
    0 1
    ⟨3, true, ⟨0, 5⟩, true, some (⟨3⟩, false), some (⟨3⟩, true, false), .nextWindow⟩
    ⟨13, true, ⟨10, 15⟩, true, some (⟨3⟩, false), some (⟨3⟩, true, false), .nextWindow⟩
    (by decide) (by decide) (by decide) (by decide) (by decide)

end AlloraOffchain
